import Mathlib

/-!
Verification development for the DyngineRust scene-graph core.

The Rust source is shallowly embedded: `f32` scalars become exact rationals
(`ℚ`), so every algebraic identity proved here is the exact-arithmetic shape
of the floating-point computation; transcendental library calls (`cos`, `sin`,
`Quat::from_euler`, the look-at / perspective matrix builders) are passed in
as explicit function parameters, since their values are irrational and the
claims under study are about data flow and control flow, not rounding.
Fallible operations (`Option::unwrap`) are embedded in `Option`, with `none`
standing for a panic.
-/

namespace Dyngine

/-- A 3-component vector, mirroring `glam::Vec3A` with exact scalars. -/
structure Vec3 where
  x : ℚ
  y : ℚ
  z : ℚ
deriving DecidableEq, Repr

def Vec3.zero : Vec3 := ⟨0, 0, 0⟩

def Vec3.add (a b : Vec3) : Vec3 := ⟨a.x + b.x, a.y + b.y, a.z + b.z⟩

instance : Add Vec3 := ⟨Vec3.add⟩

def Vec3.neg (a : Vec3) : Vec3 := ⟨-a.x, -a.y, -a.z⟩

instance : Neg Vec3 := ⟨Vec3.neg⟩

/-- Scalar multiplication `v * s` (`glam` broadcasts the scalar). -/
def Vec3.smul (a : Vec3) (s : ℚ) : Vec3 := ⟨a.x * s, a.y * s, a.z * s⟩

/-- Cross product, exactly as `glam::Vec3A::cross`. -/
def Vec3.cross (a b : Vec3) : Vec3 :=
  ⟨a.y * b.z - a.z * b.y, a.z * b.x - a.x * b.z, a.x * b.y - a.y * b.x⟩

/-- Dot product, exactly as `glam::Vec3A::dot`. -/
def Vec3.dot (a b : Vec3) : ℚ := a.x * b.x + a.y * b.y + a.z * b.z

/-- A quaternion, mirroring `glam::Quat` with exact scalars. -/
structure Quat where
  x : ℚ
  y : ℚ
  z : ℚ
  w : ℚ
deriving DecidableEq, Repr

/-- Rotation of a vector by a quaternion, exactly the polynomial formula used
by `glam::Quat::mul_vec3a`:
`v*(w*w - b.dot(b)) + b*(v.dot(b)*2) + b.cross(v)*(w*2)` with `b = q.xyz`. -/
def Quat.mulVec3 (q : Quat) (v : Vec3) : Vec3 :=
  let b : Vec3 := ⟨q.x, q.y, q.z⟩
  let b2 : ℚ := b.dot b
  v.smul (q.w * q.w - b2) + b.smul (v.dot b * 2) + (b.cross v).smul (q.w * 2)

/-- The 16-float shader-state block `CameraShaderState` (`[[f32; 4]; 4]`,
`view_proj`): by construction a fixed block of sixteen scalars. -/
structure Mat16 where
  m00 : ℚ
  m01 : ℚ
  m02 : ℚ
  m03 : ℚ
  m10 : ℚ
  m11 : ℚ
  m12 : ℚ
  m13 : ℚ
  m20 : ℚ
  m21 : ℚ
  m22 : ℚ
  m23 : ℚ
  m30 : ℚ
  m31 : ℚ
  m32 : ℚ
  m33 : ℚ
deriving DecidableEq, Repr

/-- The hard-coded identity block the camera constructor seeds. -/
def Mat16.identity : Mat16 :=
  ⟨1, 0, 0, 0, 0, 1, 0, 0, 0, 0, 1, 0, 0, 0, 0, 1⟩

/-- The block as the flat 16-float sequence written to the GPU buffer. -/
def Mat16.toList (m : Mat16) : List ℚ :=
  [m.m00, m.m01, m.m02, m.m03, m.m10, m.m11, m.m12, m.m13,
   m.m20, m.m21, m.m22, m.m23, m.m30, m.m31, m.m32, m.m33]

theorem Mat16.toList_length (m : Mat16) : m.toList.length = 16 := rfl

/-- The platform trigonometric functions used by the Euler setters:
`cosDeg d` stands for `d.to_radians().cos()` and `sinDeg d` for
`d.to_radians().sin()`. They are parameters of the embedding because their
values are transcendental; every theorem below holds for all of them. -/
structure Trig where
  cosDeg : ℚ → ℚ
  sinDeg : ℚ → ℚ

/-- `scenelib::camera::PerspectiveCamera`, field for field. -/
structure PerspectiveCamera where
  position : Vec3
  direction : Vec3
  right : Vec3
  forward_axis : Vec3
  up_axis : Vec3
  up : Vec3
  aspect : ℚ
  fov : ℚ
  near : ℚ
  far : Option ℚ
  dirty : Bool
  camera_shader_state : Mat16
deriving DecidableEq, Repr

namespace PerspectiveCamera

/-- `PerspectiveCamera::new`. `toRadians` stands for `f32::to_radians`
(multiplication by the irrational π/180), a parameter of the embedding. -/
def new (toRadians : ℚ → ℚ) (position direction forward_axis up_axis : Vec3)
    (fov_degrees near : ℚ) (far : Option ℚ) (aspect : ℚ) : PerspectiveCamera :=
  { position := position
    direction := direction
    right := up_axis.cross direction
    forward_axis := forward_axis
    up_axis := up_axis
    up := direction.cross (up_axis.cross direction)
    aspect := aspect
    fov := toRadians fov_degrees
    near := near
    far := far
    dirty := true
    camera_shader_state := Mat16.identity }

/-- `PerspectiveCamera::update`. `compute` stands for the block
`(projection_matrix * view_matrix).to_cols_array_2d()` built from
`Mat4::look_at_lh` and `Mat4::perspective_lh` / `perspective_infinite_lh`
out of the camera's fields — a parameter of the embedding (it involves
`normalize` and `tan`). The control flow (the early return on a clean
camera and the clearing of `dirty`) is embedded exactly. -/
def update (compute : PerspectiveCamera → Mat16) (c : PerspectiveCamera) :
    PerspectiveCamera :=
  if c.dirty = false then c
  else { c with camera_shader_state := compute c, dirty := false }

/-- `PerspectiveCamera::set_up_axis`: equality-gated; re-derives `up`
(but not `right`). -/
def set_up_axis (c : PerspectiveCamera) (v : Vec3) : PerspectiveCamera :=
  if c.up_axis = v then c
  else { c with up_axis := v, up := c.direction.cross (v.cross c.direction), dirty := true }

/-- `PerspectiveCamera::set_position`. -/
def set_position (c : PerspectiveCamera) (v : Vec3) : PerspectiveCamera :=
  if c.position = v then c else { c with position := v, dirty := true }

/-- `PerspectiveCamera::set_direction`: equality-gated; re-derives
`right = up_axis × direction` and then `up = direction × (right × direction)`. -/
def set_direction (c : PerspectiveCamera) (v : Vec3) : PerspectiveCamera :=
  if c.direction = v then c
  else
    let r := c.up_axis.cross v
    { c with direction := v, right := r, up := v.cross (r.cross v), dirty := true }

/-- `PerspectiveCamera::set_aspect`. -/
def set_aspect (c : PerspectiveCamera) (v : ℚ) : PerspectiveCamera :=
  if c.aspect = v then c else { c with aspect := v, dirty := true }

/-- `PerspectiveCamera::set_fov`. -/
def set_fov (c : PerspectiveCamera) (v : ℚ) : PerspectiveCamera :=
  if c.fov = v then c else { c with fov := v, dirty := true }

/-- `PerspectiveCamera::set_near`. -/
def set_near (c : PerspectiveCamera) (v : ℚ) : PerspectiveCamera :=
  if c.near = v then c else { c with near := v, dirty := true }

/-- `PerspectiveCamera::set_far` (compares against `Some(far)`). -/
def set_far (c : PerspectiveCamera) (v : ℚ) : PerspectiveCamera :=
  if c.far = some v then c else { c with far := some v, dirty := true }

/-- `PerspectiveCamera::set_rotation`: derives direction/up/right from the
quaternion and raises `dirty` only when one of them changed. -/
def set_rotation (c : PerspectiveCamera) (q : Quat) : PerspectiveCamera :=
  let direction := q.mulVec3 c.forward_axis
  let up := q.mulVec3 c.up_axis
  let r := up.cross direction
  { c with
    direction := direction
    up := up
    right := r
    dirty := if c.direction = direction ∧ c.up = up ∧ c.right = r then c.dirty else true }

/-- `PerspectiveCamera::set_rotation_euler`: rebuilds the direction from
yaw/pitch, re-derives `right` and `up`, and sets `dirty` unconditionally. -/
def set_rotation_euler (T : Trig) (c : PerspectiveCamera)
    (yaw_degrees pitch_degrees : ℚ) : PerspectiveCamera :=
  let d : Vec3 :=
    ⟨T.cosDeg yaw_degrees * T.cosDeg pitch_degrees,
     T.sinDeg pitch_degrees,
     T.sinDeg yaw_degrees * T.cosDeg pitch_degrees⟩
  let r := c.up_axis.cross d
  { c with direction := d, right := r, up := d.cross r, dirty := true }

/-- `PerspectiveCamera::set_roll_euler`: rebuilds `up_axis.x`/`up_axis.y`
from the roll angle (leaving `up_axis.z`), re-derives `right` and `up`,
and sets `dirty` unconditionally. -/
def set_roll_euler (T : Trig) (c : PerspectiveCamera) (roll_degrees : ℚ) :
    PerspectiveCamera :=
  let u : Vec3 := ⟨T.cosDeg roll_degrees, T.sinDeg roll_degrees, c.up_axis.z⟩
  let r := u.cross c.direction
  { c with up_axis := u, right := r, up := c.direction.cross r, dirty := true }

end PerspectiveCamera

/-- A pending `queue.write_buffer(buffer, offset, data)` call on the camera's
uniform buffer: the byte offset and the 16-float block that is written. -/
structure BufferWrite where
  offset : ℕ
  data : Mat16
deriving DecidableEq, Repr

/-- `scenelib::camera::CameraRenderNode` (the GPU buffer and bind group are
owned handles whose only mutation in the embedded code is the
`write_buffer` call, which `resolve_dirty_state` returns explicitly). -/
structure CameraRenderNode where
  camera : PerspectiveCamera
  is_active_camera : Bool
  dirty : Bool
deriving DecidableEq, Repr

namespace CameraRenderNode

/-- `CameraRenderNode::set_active`: idempotent; raises node-dirty on a
transition. -/
def set_active (n : CameraRenderNode) : CameraRenderNode :=
  if n.is_active_camera then n
  else { n with is_active_camera := true, dirty := true }

/-- `CameraRenderNode::set_inactive`: idempotent; raises node-dirty on a
transition. -/
def set_inactive (n : CameraRenderNode) : CameraRenderNode :=
  if n.is_active_camera = false then n
  else { n with is_active_camera := false, dirty := true }

/-- `RenderNode::is_dirty` for `CameraRenderNode`: node-dirty ∨ camera-dirty. -/
def is_dirty (n : CameraRenderNode) : Bool :=
  n.dirty || n.camera.dirty

/-- `CameraRenderNode::resolve_dirty_state`, statement for statement:
snapshot both dirty flags, update the camera if camera-dirty, clear
node-dirty, and, when the node is the active camera and either flag was set,
write the (post-update) shader state to the uniform buffer at offset 0.
Returns the new node and the buffer write, if any. -/
def resolve_dirty_state (compute : PerspectiveCamera → Mat16)
    (n : CameraRenderNode) : CameraRenderNode × Option BufferWrite :=
  let was_camera_dirty := n.camera.dirty
  let was_camera_render_node_dirty := n.dirty
  let camera := if n.camera.dirty then n.camera.update compute else n.camera
  let node : CameraRenderNode := { n with camera := camera, dirty := false }
  let write : Option BufferWrite :=
    if n.is_active_camera then
      if was_camera_dirty || was_camera_render_node_dirty then
        some ⟨0, camera.camera_shader_state⟩
      else none
    else none
  (node, write)

end CameraRenderNode

/-- Modelled from the spec: `RenderScene::set_active_camera` — the render
scene holding the handle-indexed camera list is not present under `src/`
(only its caller `EngineInstance::pre_render` and the node-level
`set_active` / `set_inactive` are). Per the spec it "activates the given
camera node; iterates the camera list and deactivates all other cameras".
The camera list is embedded as the list of (handle, node) pairs. -/
def set_active_camera (h : ℕ) (cameras : List (ℕ × CameraRenderNode)) :
    List (ℕ × CameraRenderNode) :=
  cameras.map (fun e => if e.1 = h then (e.1, e.2.set_active) else (e.1, e.2.set_inactive))

section RenderSceneLoop

/-- One visit of `RenderScene::render`'s loop body, for a node with key `k`
and dirty flag `d`: `if node.is_dirty() { node.resolve_dirty_state(..) }`
then `node.render(..)`. The emitted events record the calls in order. -/
inductive RenderEvent where
  | resolved (k : ℕ)
  | drawn (k : ℕ)
deriving DecidableEq, Repr

/-- `RenderScene::render` (scenelib/src/scene.rs): the loop body applied to
the node map's entries in the order the backing `std::collections::HashMap`
iterates them. That iteration order is unspecified — any permutation of the
inserted entries — so the embedding takes the iteration sequence as input.
Each entry is (key, is-dirty). -/
def renderLoop : List (ℕ × Bool) → List RenderEvent
  | [] => []
  | (k, d) :: rest =>
      (if d then [RenderEvent.resolved k] else []) ++ [RenderEvent.drawn k] ++ renderLoop rest

/-- The keys drawn by a run of the render loop, in draw order. -/
def drawnKeys (events : List RenderEvent) : List ℕ :=
  events.filterMap (fun e =>
    match e with
    | RenderEvent.drawn k => some k
    | RenderEvent.resolved _ => none)

end RenderSceneLoop

/-- `scenelib::ecs::MovementInput`. -/
structure MovementInput where
  forward : Bool
  backward : Bool
  left : Bool
  right : Bool
  up : Bool
  down : Bool
  sprinting : Bool
  should_roll : Bool
  delta_yaw : ℚ
  delta_pitch : ℚ
deriving DecidableEq, Repr

/-- `MovementInput::new`. -/
def MovementInput.new : MovementInput :=
  ⟨false, false, false, false, false, false, false, false, 0, 0⟩

/-- `scenelib::ecs::RotationComponent`: Euler angles plus the cached
quaternion they determine. -/
structure RotationComponent where
  yaw : ℚ
  pitch : ℚ
  roll : ℚ
  quaternion : Quat
deriving DecidableEq, Repr

/-- `scenelib::ecs::CameraComponent`. -/
structure CameraComponent where
  forward_axis : Vec3
  up_axis : Vec3
  fov : ℚ
deriving DecidableEq, Repr

/-- An entity matched by `FlyingCameraSystem`'s join: it has Rotation,
Velocity and Camera components and the FlyingCamera marker. -/
structure FlyingEntity where
  rotation : RotationComponent
  velocity : Vec3
  camera : CameraComponent
deriving DecidableEq, Repr

namespace FlyingCameraSystem

/-- The per-entity body of `FlyingCameraSystem::run`. `fromEulerZYX` stands
for `Quat::from_euler(EulerRot::ZYX, roll, yaw, pitch)` — a parameter of the
embedding (it is built from sines and cosines of the half-angles); every
theorem below holds for all such functions. -/
def step (fromEulerZYX : ℚ → ℚ → ℚ → Quat) (inp : MovementInput)
    (e : FlyingEntity) : FlyingEntity :=
  let rot := e.rotation
  let rot :=
    if inp.should_roll = false then
      { rot with yaw := rot.yaw + inp.delta_yaw, pitch := rot.pitch + inp.delta_pitch }
    else
      { rot with roll := rot.roll + inp.delta_yaw }
  let rot := { rot with quaternion := fromEulerZYX rot.roll rot.yaw rot.pitch }
  let forward := rot.quaternion.mulVec3 e.camera.forward_axis
  let up := rot.quaternion.mulVec3 e.camera.up_axis
  let r := up.cross forward
  let move_dir := Vec3.zero
  let move_dir :=
    if xor inp.forward inp.backward then
      move_dir + (if inp.forward then forward else -forward)
    else move_dir
  let move_dir :=
    if xor inp.left inp.right then
      move_dir + (if inp.right then r else -r)
    else move_dir
  let move_dir :=
    if xor inp.up inp.down then
      move_dir + (if inp.up then up else -up)
    else move_dir
  { e with
    rotation := rot
    velocity := move_dir.smul (if inp.sprinting then 2 else 1) }

/-- `FlyingCameraSystem::run` over the joined entities. The system's data
includes the `DeltaTimeResource` (`dt`), which the body never reads. -/
def run (fromEulerZYX : ℚ → ℚ → ℚ → Quat) (dt : ℚ) (inp : MovementInput)
    (entities : List FlyingEntity) : List FlyingEntity :=
  entities.map (step fromEulerZYX inp)

end FlyingCameraSystem

/-- An ECS entity as seen by the integrator's storages: each component is
present or absent; `par_join` matches exactly the entities having both a
Velocity and a Position. -/
structure EcsEntity where
  position : Option Vec3
  velocity : Option Vec3
  rotation : Option RotationComponent
  camera : Option CameraComponent
  flying : Bool
deriving DecidableEq, Repr

namespace NewtonianExplicitIntegratorSystem

/-- The per-entity body of `NewtonianExplicitIntegratorSystem::run`:
`position.position += velocity.velocity * delta_time.0` for entities having
both components, all other entities and components untouched. -/
def step (dt : ℚ) (e : EcsEntity) : EcsEntity :=
  match e.velocity, e.position with
  | some v, some p => { e with position := some (p + v.smul dt) }
  | _, _ => e

/-- `NewtonianExplicitIntegratorSystem::run` over all entities. The source
runs the same independent per-entity update via a parallel join; the result
is the map of `step` over the entities. -/
def run (dt : ℚ) (entities : List EcsEntity) : List EcsEntity :=
  entities.map (step dt)

end NewtonianExplicitIntegratorSystem

/-- `core::input::KeyboardInputHandler`: key → pressed, as an association
list (keys and devices are embedded as naturals, `ElementState` as `Bool`). -/
def KeyboardInputHandler := List (ℕ × Bool)

/-- `KeyboardInputHandler::set_key_pressed` (`HashMap::insert`). -/
def KeyboardInputHandler.set_key_pressed (h : KeyboardInputHandler)
    (key : ℕ) (pressed : Bool) : KeyboardInputHandler :=
  (key, pressed) :: (h.filter (fun e => e.1 ≠ key))

/-- `core::input::InputHandler`: device → keyboard handler. -/
def InputHandler := List (ℕ × KeyboardInputHandler)

/-- `InputHandler::set_key_pressed`: `entry(device).or_insert_with(new)`
then `set_key_pressed` on that keyboard handler. -/
def InputHandler.set_key_pressed (h : InputHandler) (device key : ℕ)
    (pressed : Bool) : InputHandler :=
  if h.any (fun e => e.1 = device) then
    h.map (fun e => if e.1 = device then (e.1, e.2.set_key_pressed key pressed) else e)
  else
    (device, KeyboardInputHandler.set_key_pressed [] key pressed) :: h

/-- `core::engine::EngineCoreState`, restricted to the state the embedded
engine entry points mutate (the pipeline, bundle and scene it also owns are
GPU handles created in `start`). -/
structure EngineCoreState where
  input_handler : InputHandler

/-- `core::engine::ViewportRegion`. -/
structure ViewportRegion where
  x : ℚ
  y : ℚ
  width : ℚ
  height : ℚ
deriving DecidableEq, Repr

/-- `ViewportRegion::ZERO`. -/
def ViewportRegion.zero : ViewportRegion := ⟨0, 0, 0, 0⟩

/-- `core::engine::EngineInstance`: `engine_core_state` is `None` until
`start()` has run. -/
structure EngineInstance where
  engine_core_state : Option EngineCoreState
  movement_input : MovementInput

namespace EngineInstance

/-- `EngineInstance::handle_key_state`: unconditionally unwraps
`engine_core_state` — `none` is the panic of `Option::unwrap` on `None` —
then forwards the key state to the input handler. -/
def handle_key_state (e : EngineInstance) (device key : ℕ) (pressed : Bool) :
    Option EngineInstance :=
  match e.engine_core_state with
  | none => none
  | some core =>
      some { e with
        engine_core_state :=
          some { core with
            input_handler := core.input_handler.set_key_pressed device key pressed } }

/-- `EngineInstance::render`: early-returns, leaving the instance untouched,
when the viewport is zero or the engine is uninitialized; otherwise runs the
frame body (pre-render, render-pass recording), which is a parameter here —
the early-return guard is what is embedded, and the theorems about it hold
for every body. -/
def render (body : EngineInstance → EngineInstance) (e : EngineInstance)
    (viewport_region : ViewportRegion) : EngineInstance :=
  if viewport_region = ViewportRegion.zero ∨ e.engine_core_state.isNone then e
  else body e

/-- `EngineInstance::resize`: same early-return guard as `render`; the
camera-aspect sweep is the parameter `body`. -/
def resize (body : EngineInstance → EngineInstance) (e : EngineInstance)
    (viewport_region : ViewportRegion) : EngineInstance :=
  if viewport_region = ViewportRegion.zero ∨ e.engine_core_state.isNone then e
  else body e

end EngineInstance

/-! ## Shared concrete instances used by witnesses and counterexamples -/

/-- A clean camera looking along +Z with up-axis +Y: `right = up_axis × direction`
and `up = direction × right` hold, as established by the constructor. -/
def sampleCamera : PerspectiveCamera :=
  { position := Vec3.zero
    direction := ⟨0, 0, 1⟩
    right := ⟨1, 0, 0⟩
    forward_axis := ⟨0, 0, 1⟩
    up_axis := ⟨0, 1, 0⟩
    up := ⟨0, 1, 0⟩
    aspect := 1
    fov := 1
    near := 1 / 100
    far := none
    dirty := false
    camera_shader_state := Mat16.identity }

/-- A clean camera looking along +X with up-axis +Y (its stored basis is the
one `set_rotation_euler` with yaw = pitch = 0 reconstructs). -/
def sampleCameraX : PerspectiveCamera :=
  { sampleCamera with
    direction := ⟨1, 0, 0⟩
    right := ⟨0, 0, -1⟩
    forward_axis := ⟨1, 0, 0⟩ }

/-- An active camera render node whose node-dirty flag is set. -/
def sampleNode : CameraRenderNode :=
  { camera := sampleCamera, is_active_camera := true, dirty := true }

/-- A concrete stand-in for the view-projection computation. -/
def idCompute : PerspectiveCamera → Mat16 := fun _ => Mat16.identity

/-- A concrete trig table. Only its values at the argument 0 are consumed by
the statements below, and there it agrees exactly with the platform
functions: `cos 0 = 1` and `sin 0 = 0` hold exactly in `f32`. -/
def trig0 : Trig := ⟨fun _ => 1, fun _ => 0⟩

/-! ## Claims -/

/-- C1: for every camera render-node resolve, the uniform buffer is written
iff the node is active and (the camera was dirty ∨ the node was dirty) at
entry; any write is the whole 16-float shader-state block of the resolved
camera, at offset 0; and node-dirty is cleared by the resolve. -/
theorem camera_resolve_upload_gating (compute : PerspectiveCamera → Mat16)
    (n : CameraRenderNode) :
    ((n.resolve_dirty_state compute).2.isSome = true ↔
      (n.is_active_camera = true ∧ (n.camera.dirty = true ∨ n.dirty = true)))
    ∧ (n.resolve_dirty_state compute).1.dirty = false
    ∧ ∀ w, (n.resolve_dirty_state compute).2 = some w →
        w.offset = 0
        ∧ w.data = (n.resolve_dirty_state compute).1.camera.camera_shader_state
        ∧ w.data.toList.length = 16 := by
  cases hA : n.is_active_camera <;> cases hC : n.camera.dirty <;> cases hN : n.dirty <;>
    simp_all [CameraRenderNode.resolve_dirty_state, Mat16.toList_length]

/-- C1 witness: on an active, node-dirty instance the resolve clears
node-dirty and the emitted write starts at offset 0 with a 16-float block. -/
theorem camera_resolve_upload_gating_witness :
    (sampleNode.resolve_dirty_state idCompute).1.dirty = false
    ∧ (0 : ℕ) = 0 ∧ Mat16.identity.toList.length = 16 :=
  ⟨(camera_resolve_upload_gating idCompute sampleNode).2.1,
   ((camera_resolve_upload_gating idCompute sampleNode).2.2 ⟨0, Mat16.identity⟩
      (by decide)).1,
   ((camera_resolve_upload_gating idCompute sampleNode).2.2 ⟨0, Mat16.identity⟩
      (by decide)).2.2⟩

/-- C2: after `set_active_camera h`, a camera in the scene's camera list is
active exactly when its handle is `h`: `h`'s node is active, every other
node is inactive. -/
theorem set_active_camera_exclusive (h : ℕ) (cameras : List (ℕ × CameraRenderNode)) :
    ∀ e ∈ set_active_camera h cameras, (e.2.is_active_camera = true ↔ e.1 = h) := by
  intro e he
  rw [set_active_camera, List.mem_map] at he
  obtain ⟨a, _, rfl⟩ := he
  by_cases hah : a.1 = h <;>
    cases hact : a.2.is_active_camera <;>
      simp [hah, hact, CameraRenderNode.set_active, CameraRenderNode.set_inactive]

/-- C2 witness: activating handle 2 in a two-camera list leaves the handle-1
node inactive and the handle-2 node active. -/
theorem set_active_camera_exclusive_witness :
    (((1 : ℕ), CameraRenderNode.set_inactive ⟨sampleCamera, true, false⟩).2.is_active_camera = true
      ↔ ((1 : ℕ), CameraRenderNode.set_inactive ⟨sampleCamera, true, false⟩).1 = 2)
    ∧ (((2 : ℕ), CameraRenderNode.set_active ⟨sampleCamera, false, false⟩).2.is_active_camera = true
      ↔ ((2 : ℕ), CameraRenderNode.set_active ⟨sampleCamera, false, false⟩).1 = 2) :=
  ⟨set_active_camera_exclusive 2
      [(1, ⟨sampleCamera, true, false⟩), (2, ⟨sampleCamera, false, false⟩)]
      (1, CameraRenderNode.set_inactive ⟨sampleCamera, true, false⟩)
      (by simp [set_active_camera]),
   set_active_camera_exclusive 2
      [(1, ⟨sampleCamera, true, false⟩), (2, ⟨sampleCamera, false, false⟩)]
      (2, CameraRenderNode.set_active ⟨sampleCamera, false, false⟩)
      (by simp [set_active_camera])⟩

/-- C3 counterexample: `set_rotation_euler` called with yaw = pitch = 0 on a
camera whose stored state is exactly the one those angles encode (direction
(1,0,0), right (0,0,-1), up (0,1,0)) leaves every observable field unchanged
yet raises the dirty flag — the claim says an equal value must not raise it.
(`trig0` agrees with the platform trig at the only argument used, 0.) -/
theorem equal_euler_value_still_raises_dirty :
    sampleCameraX.dirty = false
    ∧ PerspectiveCamera.set_rotation_euler trig0 sampleCameraX 0 0
        = { sampleCameraX with dirty := true } := by
  refine ⟨rfl, ?_⟩
  norm_num [PerspectiveCamera.set_rotation_euler, trig0, sampleCameraX, sampleCamera,
    Vec3.cross]

/-- C3 amended: the value setters (position, direction, up-axis, aspect, fov,
near, far) raise dirty exactly when the new value differs from the stored
one; `set_rotation` raises dirty exactly when a derived vector (direction,
up, right) changes; `set_rotation_euler` and `set_roll_euler` raise dirty
unconditionally, even when the encoded value equals the stored one. -/
theorem camera_setter_dirty_gating (c : PerspectiveCamera) (T : Trig)
    (v : Vec3) (s : ℚ) (q : Quat) (a b : ℚ) :
    ((c.set_position v).dirty = if c.position = v then c.dirty else true)
    ∧ ((c.set_direction v).dirty = if c.direction = v then c.dirty else true)
    ∧ ((c.set_up_axis v).dirty = if c.up_axis = v then c.dirty else true)
    ∧ ((c.set_aspect s).dirty = if c.aspect = s then c.dirty else true)
    ∧ ((c.set_fov s).dirty = if c.fov = s then c.dirty else true)
    ∧ ((c.set_near s).dirty = if c.near = s then c.dirty else true)
    ∧ ((c.set_far s).dirty = if c.far = some s then c.dirty else true)
    ∧ ((c.set_rotation q).dirty =
        if c.direction = q.mulVec3 c.forward_axis ∧ c.up = q.mulVec3 c.up_axis
           ∧ c.right = (q.mulVec3 c.up_axis).cross (q.mulVec3 c.forward_axis)
        then c.dirty else true)
    ∧ ((c.set_rotation_euler T a b).dirty = true)
    ∧ ((c.set_roll_euler T a).dirty = true) := by
  refine ⟨?_, ?_, ?_, ?_, ?_, ?_, ?_, ?_, rfl, rfl⟩ <;>
    first
      | · rw [PerspectiveCamera.set_position]; split <;> simp
      | · rw [PerspectiveCamera.set_direction]; split <;> simp
      | · rw [PerspectiveCamera.set_up_axis]; split <;> simp
      | · rw [PerspectiveCamera.set_aspect]; split <;> simp
      | · rw [PerspectiveCamera.set_fov]; split <;> simp
      | · rw [PerspectiveCamera.set_near]; split <;> simp
      | · rw [PerspectiveCamera.set_far]; split <;> simp
      | · rw [PerspectiveCamera.set_rotation]

/-- Supporting algebra for C4: for any changed direction `v`, the `up`
vector `set_direction` computes, `v × ((up_axis × v) × v)`, equals the new
`right` vector scaled by `v · v` — the code makes `up` collinear with
`right`, instead of the spec's `up = direction × right`. -/
theorem set_direction_up_collinear_right (c : PerspectiveCamera) (v : Vec3)
    (h : ¬ c.direction = v) :
    (c.set_direction v).up = (c.set_direction v).right.smul (v.dot v) := by
  rw [PerspectiveCamera.set_direction]
  simp only [h, if_false]
  show Vec3.cross v _ = Vec3.smul _ _
  rcases c.up_axis with ⟨ux, uy, uz⟩
  rcases v with ⟨vx, vy, vz⟩
  simp only [Vec3.cross, Vec3.smul, Vec3.dot, Vec3.mk.injEq]
  refine ⟨by ring, by ring, by ring⟩

/-- C4: evaluation of the code at the failing input. On the clean camera
looking along +Z with up-axis +Y, `set_direction (1,0,0)` yields
`right = (0,0,-1)` (as claimed) but `up = (0,0,-1)` — equal to `right`,
not to `direction × right = (0,1,0)` as the claim states; and
`set_up_axis (1,0,0)` leaves `right` at its old value `(1,0,0)` instead of
re-deriving `up_axis × direction = (0,-1,0)` as the claim states. -/
theorem derived_basis_code_bug :
    ((sampleCamera.set_direction ⟨1, 0, 0⟩).right = ⟨0, 0, -1⟩
      ∧ (sampleCamera.set_direction ⟨1, 0, 0⟩).up = ⟨0, 0, -1⟩
      ∧ Vec3.cross ⟨1, 0, 0⟩ (sampleCamera.set_direction ⟨1, 0, 0⟩).right = ⟨0, 1, 0⟩)
    ∧ ((sampleCamera.set_up_axis ⟨1, 0, 0⟩).right = ⟨1, 0, 0⟩
      ∧ Vec3.cross (⟨1, 0, 0⟩ : Vec3) (sampleCamera.set_up_axis ⟨1, 0, 0⟩).direction
          = ⟨0, -1, 0⟩) := by
  norm_num [PerspectiveCamera.set_direction, PerspectiveCamera.set_up_axis, sampleCamera,
    Vec3.cross, Vec3.mk.injEq]

theorem Vec3.zero_add (v : Vec3) : Vec3.zero + v = v := by
  show Vec3.add Vec3.zero v = v
  simp [Vec3.add, Vec3.zero]

theorem Vec3.add_zero (v : Vec3) : v + Vec3.zero = v := by
  show Vec3.add v Vec3.zero = v
  simp [Vec3.add, Vec3.zero]

/-- The output entry of a `FlyingCameraSystem` run is the step applied to
the input entry. -/
theorem FlyingCameraSystem.run_get (fromEulerZYX : ℚ → ℚ → ℚ → Quat) (dt : ℚ)
    (inp : MovementInput) (entities : List FlyingEntity) (i : ℕ) (e e' : FlyingEntity)
    (he : entities[i]? = some e)
    (he' : (FlyingCameraSystem.run fromEulerZYX dt inp entities)[i]? = some e') :
    e' = FlyingCameraSystem.step fromEulerZYX inp e := by
  rw [FlyingCameraSystem.run, List.getElem?_map, he] at he'
  exact (Option.some.inj he').symm

/-- C5: after one `FlyingCameraSystem` run on a matched entity: with
`should_roll = false`, yaw and pitch advance by exactly the input deltas
while roll is unchanged; with `should_roll = true`, only roll advances by
the yaw delta; in both cases the cached quaternion equals
`fromEulerZYX roll yaw pitch` of the updated angles. -/
theorem flying_camera_rotation_law (fromEulerZYX : ℚ → ℚ → ℚ → Quat) (dt : ℚ)
    (inp : MovementInput) (entities : List FlyingEntity) (i : ℕ) (e e' : FlyingEntity)
    (he : entities[i]? = some e)
    (he' : (FlyingCameraSystem.run fromEulerZYX dt inp entities)[i]? = some e') :
    (inp.should_roll = false →
        e'.rotation.yaw = e.rotation.yaw + inp.delta_yaw
        ∧ e'.rotation.pitch = e.rotation.pitch + inp.delta_pitch
        ∧ e'.rotation.roll = e.rotation.roll)
    ∧ (inp.should_roll = true →
        e'.rotation.roll = e.rotation.roll + inp.delta_yaw
        ∧ e'.rotation.yaw = e.rotation.yaw
        ∧ e'.rotation.pitch = e.rotation.pitch)
    ∧ e'.rotation.quaternion
        = fromEulerZYX e'.rotation.roll e'.rotation.yaw e'.rotation.pitch := by
  rw [FlyingCameraSystem.run_get fromEulerZYX dt inp entities i e e' he he']
  cases hr : inp.should_roll <;> simp [FlyingCameraSystem.step, hr]

/-- C6: in `FlyingCameraSystem`, the velocity written to a matched entity is
the sum of the XOR-gated basis contributions — +forward/−forward when
forward ≠ backward, +right/−right when right ≠ left, +up/−up when up ≠ down,
nothing for a pair of equal flags, where forward and up are the rotated axes
and right = up × forward — scaled by 2 when sprinting and by 1 otherwise,
with no renormalization. -/
theorem flying_camera_move_xor_law (fromEulerZYX : ℚ → ℚ → ℚ → Quat) (dt : ℚ)
    (inp : MovementInput) (entities : List FlyingEntity) (i : ℕ) (e e' : FlyingEntity)
    (he : entities[i]? = some e)
    (he' : (FlyingCameraSystem.run fromEulerZYX dt inp entities)[i]? = some e') :
    e'.velocity =
      (((if xor inp.forward inp.backward then
            (if inp.forward then e'.rotation.quaternion.mulVec3 e.camera.forward_axis
             else -(e'.rotation.quaternion.mulVec3 e.camera.forward_axis))
          else Vec3.zero)
        + (if xor inp.left inp.right then
            (if inp.right then
              (e'.rotation.quaternion.mulVec3 e.camera.up_axis).cross
                (e'.rotation.quaternion.mulVec3 e.camera.forward_axis)
             else -((e'.rotation.quaternion.mulVec3 e.camera.up_axis).cross
                (e'.rotation.quaternion.mulVec3 e.camera.forward_axis)))
          else Vec3.zero))
        + (if xor inp.up inp.down then
            (if inp.up then e'.rotation.quaternion.mulVec3 e.camera.up_axis
             else -(e'.rotation.quaternion.mulVec3 e.camera.up_axis))
          else Vec3.zero)).smul (if inp.sprinting then 2 else 1) := by
  rw [FlyingCameraSystem.run_get fromEulerZYX dt inp entities i e e' he he']
  cases hfb : xor inp.forward inp.backward <;>
    cases hlr : xor inp.left inp.right <;>
      cases hud : xor inp.up inp.down <;>
        simp [FlyingCameraSystem.step, hfb, hlr, hud, Vec3.zero_add, Vec3.add_zero]

/-- C7: after one `NewtonianExplicitIntegratorSystem` run, an entity having
both Velocity and Position components has position
`position + velocity · delta_time` (componentwise), and every other
component of the entity is unchanged. -/
theorem integrator_law (dt : ℚ) (entities : List EcsEntity) (i : ℕ)
    (e : EcsEntity) (p v : Vec3)
    (he : entities[i]? = some e) (hp : e.position = some p)
    (hv : e.velocity = some v) :
    (NewtonianExplicitIntegratorSystem.run dt entities)[i]?
      = some { e with position := some (p + v.smul dt) } := by
  rw [NewtonianExplicitIntegratorSystem.run, List.getElem?_map, he]
  simp [NewtonianExplicitIntegratorSystem.step, hp, hv]

theorem drawnKeys_append (a b : List RenderEvent) :
    drawnKeys (a ++ b) = drawnKeys a ++ drawnKeys b := by
  simp [drawnKeys]

theorem drawnKeys_resolved_cons (k : ℕ) (evs : List RenderEvent) :
    drawnKeys (RenderEvent.resolved k :: evs) = drawnKeys evs := by
  simp [drawnKeys]

theorem drawnKeys_drawn_cons (k : ℕ) (evs : List RenderEvent) :
    drawnKeys (RenderEvent.drawn k :: evs) = k :: drawnKeys evs := by
  simp [drawnKeys]

theorem drawnKeys_renderLoop (iter : List (ℕ × Bool)) :
    drawnKeys (renderLoop iter) = iter.map Prod.fst := by
  induction iter with
  | nil => rfl
  | cons hd tl ih =>
    obtain ⟨k, d⟩ := hd
    cases d <;>
      simp [renderLoop, drawnKeys_append, drawnKeys_resolved_cons, drawnKeys_drawn_cons, ih]

theorem renderLoop_dirty_resolved (iter : List (ℕ × Bool)) :
    ∀ k, (k, true) ∈ iter → ∃ l1 l2,
      renderLoop iter = l1 ++ RenderEvent.resolved k :: RenderEvent.drawn k :: l2 := by
  induction iter with
  | nil => simp
  | cons hd tl ih =>
    intro k hk
    rcases List.mem_cons.mp hk with heq | htl
    · refine ⟨[], renderLoop tl, ?_⟩
      rw [← heq]
      simp [renderLoop]
    · obtain ⟨l1, l2, hl⟩ := ih k htl
      obtain ⟨k0, d0⟩ := hd
      exact ⟨((if d0 then [RenderEvent.resolved k0] else []) ++ [RenderEvent.drawn k0]) ++ l1,
        l2, by simp [renderLoop, hl]⟩

/-- C8 counterexample: the node map's backing `HashMap` may legally iterate
the two inserted entries (keys 1 then 2, in insertion order) as key 2 first —
the iteration is a permutation of the entries with no order guarantee — and
then the render loop visits and draws in the order [2, 1], not the insertion
order [1, 2]. -/
theorem render_order_not_insertion_order :
    List.Perm [((2 : ℕ), false), (1, true)] [(1, true), (2, false)]
    ∧ drawnKeys (renderLoop [(2, false), (1, true)]) = [2, 1]
    ∧ drawnKeys (renderLoop [(2, false), (1, true)])
        ≠ ([((1 : ℕ), true), (2, false)].map Prod.fst) := by
  refine ⟨List.Perm.swap (1, true) (2, false) [], by decide, by decide⟩

/-- C8 amended: `RenderScene::render` visits the node map's entries in the
backing hash map's iteration order — an arbitrary permutation of the
inserted entries, not necessarily insertion order — and for every visited
node it draws it, in visit order, resolving its dirty state immediately
before the draw when the node is dirty. -/
theorem render_loop_visit_contract (iter : List (ℕ × Bool)) :
    drawnKeys (renderLoop iter) = iter.map Prod.fst
    ∧ ∀ k, (k, true) ∈ iter → ∃ l1 l2,
        renderLoop iter = l1 ++ RenderEvent.resolved k :: RenderEvent.drawn k :: l2 :=
  ⟨drawnKeys_renderLoop iter, renderLoop_dirty_resolved iter⟩

/-- C8 witness: on the iteration [(1, dirty), (2, clean)] the loop draws 1
then 2 and emits a resolve for the dirty node 1. -/
theorem render_loop_visit_contract_witness :
    drawnKeys (renderLoop [(1, true), (2, false)]) = [1, 2]
    ∧ RenderEvent.resolved 1 ∈ renderLoop [(1, true), (2, false)] := by
  obtain ⟨l1, l2, hl⟩ := (render_loop_visit_contract [(1, true), (2, false)]).2 1 (by simp)
  refine ⟨by simpa using (render_loop_visit_contract [(1, true), (2, false)]).1, ?_⟩
  rw [hl]
  simp

/-- C9: on an `EngineInstance` on which `start()` has not run
(`engine_core_state` is `None`), `handle_key_state` panics (it unwraps the
`None`), while `render` and `resize` hit their early-return guard and leave
the instance untouched, whatever their frame bodies are. -/
theorem uninitialized_engine_behavior (body1 body2 : EngineInstance → EngineInstance)
    (e : EngineInstance) (vp : ViewportRegion) (device key : ℕ) (pressed : Bool)
    (h : e.engine_core_state = none) :
    e.handle_key_state device key pressed = none
    ∧ EngineInstance.render body1 e vp = e
    ∧ EngineInstance.resize body2 e vp = e := by
  refine ⟨?_, ?_, ?_⟩ <;>
    simp [EngineInstance.handle_key_state, EngineInstance.render, EngineInstance.resize, h]

/-- A freshly constructed engine instance (`EngineInstance::new`):
`engine_core_state` is `None`. -/
def uninitEngine : EngineInstance := ⟨none, MovementInput.new⟩

/-- C9 witness: the fresh instance panics on `handle_key_state` and is left
untouched by `render` and `resize`, even on a non-zero viewport. -/
theorem uninitialized_engine_behavior_witness :
    uninitEngine.handle_key_state 0 0 true = none
    ∧ EngineInstance.render id uninitEngine ⟨0, 0, 800, 600⟩ = uninitEngine
    ∧ EngineInstance.resize id uninitEngine ⟨0, 0, 800, 600⟩ = uninitEngine :=
  uninitialized_engine_behavior id id uninitEngine ⟨0, 0, 800, 600⟩ 0 0 true rfl

/-- C10: `FlyingCameraSystem::run` reads the delta-time resource but never
uses it: two runs on identical component states and movement inputs that
differ only in delta-time produce identical rotation and velocity results. -/
theorem flying_camera_dt_independence (fromEulerZYX : ℚ → ℚ → ℚ → Quat)
    (inp : MovementInput) (entities : List FlyingEntity) (dt1 dt2 : ℚ) :
    FlyingCameraSystem.run fromEulerZYX dt1 inp entities
      = FlyingCameraSystem.run fromEulerZYX dt2 inp entities := rfl

/-! ## Witnesses for the ECS theorems -/

/-- A concrete stand-in for `Quat::from_euler(ZYX, ..)`. -/
def fe0 : ℚ → ℚ → ℚ → Quat := fun _ _ _ => ⟨0, 0, 0, 1⟩

/-- A concrete flying-camera entity (identity rotation, forward +Z, up +Y). -/
def ent0 : FlyingEntity :=
  { rotation := ⟨0, 0, 0, ⟨0, 0, 0, 1⟩⟩
    velocity := Vec3.zero
    camera := ⟨⟨0, 0, 1⟩, ⟨0, 1, 0⟩, 70⟩ }

/-- A movement input turning by Δyaw = 1, Δpitch = 2 without rolling. -/
def inp5 : MovementInput :=
  { MovementInput.new with delta_yaw := 1, delta_pitch := 2 }

/-- C5 witness: with Δyaw = 1, Δpitch = 2 and `should_roll = false` the
entity's yaw and pitch advance by the deltas and roll is unchanged. -/
theorem flying_camera_rotation_law_witness :
    (FlyingCameraSystem.step fe0 inp5 ent0).rotation.yaw
        = ent0.rotation.yaw + inp5.delta_yaw
    ∧ (FlyingCameraSystem.step fe0 inp5 ent0).rotation.roll = ent0.rotation.roll :=
  ⟨((flying_camera_rotation_law fe0 0 inp5 [ent0] 0 ent0
      (FlyingCameraSystem.step fe0 inp5 ent0) rfl rfl).1 rfl).1,
   ((flying_camera_rotation_law fe0 0 inp5 [ent0] 0 ent0
      (FlyingCameraSystem.step fe0 inp5 ent0) rfl rfl).1 rfl).2.2⟩

/-- C6 witness: with every movement flag false (all XOR pairs equal) the
velocity written is the zero sum scaled by the non-sprint factor 1. -/
theorem flying_camera_move_xor_law_witness :
    (FlyingCameraSystem.step fe0 MovementInput.new ent0).velocity
      = ((Vec3.zero + Vec3.zero) + Vec3.zero).smul 1 :=
  flying_camera_move_xor_law fe0 0 MovementInput.new [ent0] 0 ent0
    (FlyingCameraSystem.step fe0 MovementInput.new ent0) rfl rfl

/-- A concrete integrator entity with both Position and Velocity. -/
def ecsEnt0 : EcsEntity :=
  { position := some ⟨0, 0, 0⟩
    velocity := some ⟨1, 2, 3⟩
    rotation := none
    camera := none
    flying := false }

/-- C7 witness: one integrator run at dt = 1/2 moves the entity by v·dt and
changes nothing else. -/
theorem integrator_law_witness :
    (NewtonianExplicitIntegratorSystem.run (1 / 2) [ecsEnt0])[0]?
      = some { ecsEnt0 with
          position := some ((⟨0, 0, 0⟩ : Vec3) + (⟨1, 2, 3⟩ : Vec3).smul (1 / 2)) } :=
  integrator_law (1 / 2) [ecsEnt0] 0 ecsEnt0 ⟨0, 0, 0⟩ ⟨1, 2, 3⟩ rfl rfl rfl

end Dyngine
